import Mathlib

/-
Shallow embedding of `src/cm4/data/data.py` (Cloudmesh Multi Service Data
Access).  The `Data` class orchestrates a metadata store (`self._db`, a
`LocalDBProvider`) and a registry of storage providers (`self._providers`,
a Python dict mapping names to provider objects).  The provider classes
(`LocalStorageProvider`, `AzureStorageProvider`) and `LocalDBProvider` are
imported by `data.py` but are not part of the repository snapshot, so they
are modelled from the spec as abstract capabilities (section 4.1 and 4.2 of
the spec): a provider is a record of behaviour functions that may fail, and
the metadata store is a list of records with name-keyed operations.
-/

/-- A metadata record (`CloudFile` in the source, `TrackedFile` in the spec):
name, owning service (backend identifier), size and URL. -/
structure TrackedFile where
  name : String
  service : String
  size : Nat
  url : String
deriving DecidableEq, Repr

/-- The Python failure modes that `data.py` can surface: `KeyError` from a
dict lookup (`self._providers[...]`), `AttributeError` from calling a method
on `None` (`self._db` when unset), `SystemExit` from `raise SystemExit`, and
a generic `Exception` with a message (also used for provider failures). -/
inductive PyError where
  | keyError (key : String)
  | attributeError
  | systemExit
  | exception (msg : String)
deriving DecidableEq, Repr

/-- Modelled from the spec: a Storage Backend capability (section 4.2).  The
concrete classes `LocalStorageProvider` and `AzureStorageProvider` are not in
the repository snapshot; `data.py` calls their `add`, `get` and `delete`
methods, each of which may fail.  `add` uploads a local path and returns a
fully populated record; `get` downloads a record into a folder; `delete`
removes the remote object. -/
structure StorageProvider where
  add : String → Except PyError TrackedFile
  get : TrackedFile → String → Except PyError Unit
  delete : TrackedFile → Except PyError Unit

/-- Python truthiness of an optional string: `None` and `""` are falsy. -/
def truthy : Option String → Bool
  | none => false
  | some s => s ≠ ""

/-- Python `v or d` for an optional string `v` and default `d`:
the default is used when `v` is `None` or the empty string. -/
def pythonOr (v : Option String) (d : String) : String :=
  match v with
  | none => d
  | some s => if s = "" then d else s

/-- Python dict lookup over an association list (first matching key wins;
the dicts built by `config` have pairwise distinct keys). -/
def dictGet : List (String × StorageProvider) → String → Option StorageProvider
  | [], _ => none
  | kv :: tl, k => if kv.1 = k then some kv.2 else dictGet tl k

/-- Modelled from the spec: Metadata Store `list` (section 4.1) — returns all
records (`LocalDBProvider.list_files` is not in the repository snapshot). -/
def dbListFiles (store : List TrackedFile) : List TrackedFile := store

/-- Modelled from the spec: Metadata Store `get` (section 4.1) — lookup by
unique name, returning an explicit not-found signal when absent
(`LocalDBProvider.get` is not in the repository snapshot). -/
def dbGet (store : List TrackedFile) (n : String) : Option TrackedFile :=
  store.find? (fun f => f.name = n)

/-- Modelled from the spec: Metadata Store `add` (section 4.1) — inserts or
upserts by name (`LocalDBProvider.add` is not in the repository snapshot). -/
def dbAdd (store : List TrackedFile) (f : TrackedFile) : List TrackedFile :=
  if (store.find? (fun g => g.name = f.name)).isSome then
    store.map (fun g => if g.name = f.name then f else g)
  else
    store ++ [f]

/-- Modelled from the spec: Metadata Store `delete` (section 4.1) — removes
the entry with the record's name (`LocalDBProvider.delete` is not in the
repository snapshot). -/
def dbDelete (store : List TrackedFile) (f : TrackedFile) : List TrackedFile :=
  store.filter (fun g => g.name ≠ f.name)

/-- The `service.azure` configuration section: credentials and container. -/
structure AzureConf where
  account : Option String
  key : Option String
  container : Option String

/-- The `data` section of the configuration consumed by `Data.config`:
`default.db`, `db.local.CMDATA_DB_FOLDER`, `service.local.CMDATA_STORAGE_FOLDER`,
`service.azure`, and `default.service`.  Each `Config.get` that can be absent
is an `Option`. -/
structure DataConf where
  defaultDb : Option String
  dbLocalFolder : Option String
  localStorageFolder : Option String
  azure : Option AzureConf
  defaultService : Option String

/-- The mutable state of a `Data` object after `config`: whether `self._db`
was set, the metadata store contents it holds, and the provider registry
`self._providers`. -/
structure DataState where
  dbSet : Bool
  store : List TrackedFile
  providers : List (String × StorageProvider)

/-- The observable outcome of one `Data` method call: the lines it printed,
its return value or the exception it raised, and the state of the object
afterwards. -/
structure OpResult (α : Type) where
  printed : List String
  result : Except PyError α
  state : DataState

namespace Data

/-- Left-justified minimum-width field, as Python `%-ws` formatting: pad with
spaces up to width `w`, never truncate. -/
def pad (s : String) (w : Nat) : String :=
  s ++ String.mk (List.replicate (w - s.length) ' ')

/-- `Data._print_row`: the format string `" %-35s %-10s %-10s %-50s"`. -/
def printRow (file service size url : String) : String :=
  " " ++ pad file 35 ++ " " ++ pad service 10 ++ " " ++ pad size 10 ++ " " ++ pad url 50

/-- The provider-registration phase of `Data.config` (lines 46-58): register
`local` when `service.local.CMDATA_STORAGE_FOLDER` is truthy, then `azure`
when the `service.azure` section is present and both credentials are truthy.
The keys written are distinct, so sequencing dict assignments as an append is
faithful.  The constructors `mkLocal` and `mkAzure` stand for the external
classes `LocalStorageProvider(storage_path)` and
`AzureStorageProvider(az_act, az_key, az_container)`. -/
def configProviders (mkLocal : String → StorageProvider)
    (mkAzure : String → String → Option String → StorageProvider)
    (conf : DataConf) : List (String × StorageProvider) :=
  (if truthy conf.localStorageFolder then
    [("local", mkLocal (conf.localStorageFolder.getD ""))]
  else []) ++
  (match conf.azure with
   | some az =>
     if truthy az.account && truthy az.key then
       [("azure", mkAzure (az.account.getD "") (az.key.getD "") az.container)]
     else []
   | none => [])

/-- `Data.config` (lines 33-62): set `self._db` only when `default.db` is
`'local'` (the store contents `dbContents` model what the `LocalDBProvider`
holds), register the providers, then alias `self._providers['default']` to
`self._providers[default.service]` — a plain dict lookup that raises
`KeyError` when `default.service` is absent (`None` is never a key) or names
an unregistered provider.  The pair returned is the raised exception or unit,
together with the object state at that point. -/
def config (mkLocal : String → StorageProvider)
    (mkAzure : String → String → Option String → StorageProvider)
    (conf : DataConf) (dbContents : List TrackedFile) :
    Except PyError Unit × DataState :=
  let dbSet : Bool := decide (conf.defaultDb = some "local")
  let store : List TrackedFile := if dbSet then dbContents else []
  let provs := configProviders mkLocal mkAzure conf
  match conf.defaultService with
  | none => (Except.error (PyError.keyError "None"), ⟨dbSet, store, provs⟩)
  | some s =>
    match dictGet provs s with
    | none => (Except.error (PyError.keyError s), ⟨dbSet, store, provs⟩)
    | some prov => (Except.ok (), ⟨dbSet, store, provs ++ [("default", prov)]⟩)

/-- `Data.ls` (lines 64-77): `self._db.list_files()` (an `AttributeError`
when `self._db` is `None`), print the header row then one row per file, and
return the files. -/
def ls (st : DataState) : OpResult (List TrackedFile) :=
  if st.dbSet then
    let files := dbListFiles st.store
    { printed := printRow "FILE" "SERVICE" "SIZE" "URL" ::
        files.map (fun f => printRow f.name f.service (toString f.size) f.url),
      result := Except.ok files,
      state := st }
  else
    { printed := [], result := Except.error PyError.attributeError, state := st }

/-- `Data.add` (lines 79-88): `self._providers[provider or 'default']`
(`KeyError` when absent), then the provider's `add` (upload), then
`self._db.add` (`AttributeError` when `self._db` is `None`). -/
def add (st : DataState) (provider : Option String) (filePath : String) :
    OpResult TrackedFile :=
  let key := pythonOr provider "default"
  match dictGet st.providers key with
  | none => { printed := [], result := Except.error (PyError.keyError key), state := st }
  | some prov =>
    match prov.add filePath with
    | Except.error e => { printed := [], result := Except.error e, state := st }
    | Except.ok f =>
      if st.dbSet then
        { printed := [], result := Except.ok f,
          state := { st with store := dbAdd st.store f } }
      else
        { printed := [], result := Except.error PyError.attributeError, state := st }

/-- `Data.get` (lines 90-108): `self._db.get(file_name)` (an `AttributeError`
when `self._db` is `None`); when absent, print a message and
`raise SystemExit`; otherwise `dest_folder = dest_folder or '.'` and dispatch
to `self._providers[cloud_file.service].get` (`KeyError` when the stored
service is not registered). -/
def get (st : DataState) (fileName : String) (destFolder : Option String) :
    OpResult Unit :=
  if st.dbSet then
    match dbGet st.store fileName with
    | none =>
      { printed := ["Requested file not found. Use `ls` to see a list of file names."],
        result := Except.error PyError.systemExit, state := st }
    | some cf =>
      let dest := pythonOr destFolder "."
      match dictGet st.providers cf.service with
      | none =>
        { printed := [], result := Except.error (PyError.keyError cf.service), state := st }
      | some prov =>
        match prov.get cf dest with
        | Except.error e => { printed := [], result := Except.error e, state := st }
        | Except.ok _ => { printed := [], result := Except.ok (), state := st }
  else
    { printed := [], result := Except.error PyError.attributeError, state := st }

/-- `Data.delete` (lines 110-122): `self._db.get(file_name)` (an
`AttributeError` when `self._db` is `None`); when absent, raise
`Exception(f"{file_name} not found in the database.")`; otherwise call
`self._providers[cloud_file.service].delete(cloud_file)` (`KeyError` when the
stored service is not registered) and only then `self._db.delete`. -/
def delete (st : DataState) (fileName : String) : OpResult Unit :=
  if st.dbSet then
    match dbGet st.store fileName with
    | none =>
      { printed := [],
        result := Except.error (PyError.exception (fileName ++ " not found in the database.")),
        state := st }
    | some cf =>
      match dictGet st.providers cf.service with
      | none =>
        { printed := [], result := Except.error (PyError.keyError cf.service), state := st }
      | some prov =>
        match prov.delete cf with
        | Except.error e => { printed := [], result := Except.error e, state := st }
        | Except.ok _ =>
          { printed := [], result := Except.ok (),
            state := { st with store := dbDelete st.store cf } }
  else
    { printed := [], result := Except.error PyError.attributeError, state := st }

end Data

/- Sample objects used by witness theorems. -/

/-- A provider whose every operation fails: used to witness failure paths. -/
def failProvider : StorageProvider :=
  ⟨fun _ => Except.error (PyError.exception "upload failed"),
   fun _ _ => Except.error (PyError.exception "download failed"),
   fun _ => Except.error (PyError.exception "remove failed")⟩

/-- A provider whose every operation succeeds; uploads report service
`local`. -/
def okProvider : StorageProvider :=
  ⟨fun p => Except.ok ⟨p, "local", 42, "/store/" ++ p⟩,
   fun _ _ => Except.ok (),
   fun _ => Except.ok ()⟩

/-- A sample tracked record. -/
def sampleFile : TrackedFile := ⟨"notes.txt", "local", 42, "/store/notes.txt"⟩

/-- A sample object state whose only provider fails on every call. -/
def failState : DataState :=
  ⟨true, [sampleFile], [("local", failProvider), ("default", failProvider)]⟩

/-- A sample object state whose only provider succeeds on every call. -/
def okState : DataState :=
  ⟨true, [sampleFile], [("local", okProvider), ("default", okProvider)]⟩

/- Helper lemmas about the provider registry built by `config`. -/

theorem dictGet_append_of_left_none (d₁ d₂ : List (String × StorageProvider))
    (k : String) (h : dictGet d₁ k = none) :
    dictGet (d₁ ++ d₂) k = dictGet d₂ k := by
  induction d₁ with
  | nil => rfl
  | cons kv tl ih =>
    by_cases hk : kv.1 = k
    · simp [dictGet, hk] at h
    · simp [dictGet, hk] at h ⊢
      exact ih h

theorem dictGet_mem (d : List (String × StorageProvider)) (k : String)
    (v : StorageProvider) (h : dictGet d k = some v) : (k, v) ∈ d := by
  induction d with
  | nil => simp [dictGet] at h
  | cons kv tl ih =>
    by_cases hk : kv.1 = k
    · rw [dictGet, if_pos hk] at h
      cases h
      rw [← hk]
      exact List.mem_cons_self _ _
    · rw [dictGet, if_neg hk] at h
      exact List.mem_cons_of_mem _ (ih h)

theorem configProviders_resolve (mkL : String → StorageProvider)
    (mkA : String → String → Option String → StorageProvider) (conf : DataConf)
    (s : String) (prov : StorageProvider)
    (h : dictGet (Data.configProviders mkL mkA conf) s = some prov) :
    (s = "local" ∧ ∃ sp, prov = mkL sp) ∨
    (s = "azure" ∧ ∃ a k c, prov = mkA a k c) := by
  have hmem := dictGet_mem _ _ _ h
  unfold Data.configProviders at hmem
  rcases List.mem_append.1 hmem with hm | hm
  · split at hm
    · simp only [List.mem_singleton, Prod.mk.injEq] at hm
      exact Or.inl ⟨hm.1, _, hm.2⟩
    · simp at hm
  · split at hm
    · split at hm
      · simp only [List.mem_singleton, Prod.mk.injEq] at hm
        exact Or.inr ⟨hm.1, _, _, _, hm.2⟩
      · simp at hm
    · simp at hm

theorem configProviders_default_none (mkL : String → StorageProvider)
    (mkA : String → String → Option String → StorageProvider) (conf : DataConf) :
    dictGet (Data.configProviders mkL mkA conf) "default" = none := by
  cases hd : dictGet (Data.configProviders mkL mkA conf) "default" with
  | none => rfl
  | some prov =>
    rcases configProviders_resolve mkL mkA conf _ _ hd with ⟨hs, _⟩ | ⟨hs, _⟩ <;>
      simp at hs

/-- C1: for every tracked file name, `delete` calls the owning backend's
remove and only afterwards removes the metadata entry; if the backend remove
raises, the exception propagates and the object state — in particular the
metadata store — is unchanged, so the record is still discoverable by
`get`/`ls` and the delete is retryable.  (The ordering's observable content
is exactly this: a backend failure leaves the metadata entry intact.) -/
theorem delete_backend_failure_keeps_metadata
    (st : DataState) (n : String) (cf : TrackedFile) (prov : StorageProvider)
    (e : PyError)
    (hdb : st.dbSet = true) (hfind : dbGet st.store n = some cf)
    (hprov : dictGet st.providers cf.service = some prov)
    (hfail : prov.delete cf = Except.error e) :
    (Data.delete st n).result = Except.error e ∧
    (Data.delete st n).state = st ∧
    dbGet ((Data.delete st n).state).store n = some cf := by
  simp [Data.delete, hdb, hfind, hprov, hfail]

/-- Witness for C1 at a concrete state whose provider's remove fails. -/
theorem delete_backend_failure_keeps_metadata_witness :
    (Data.delete failState "notes.txt").result =
      Except.error (PyError.exception "remove failed") ∧
    (Data.delete failState "notes.txt").state = failState ∧
    dbGet ((Data.delete failState "notes.txt").state).store "notes.txt" =
      some sampleFile :=
  delete_backend_failure_keeps_metadata failState "notes.txt" sampleFile
    failProvider (PyError.exception "remove failed") rfl rfl rfl rfl

/-- C2: for every name absent from the metadata store, `get` prints the
not-found message and terminates via `SystemExit`, and `delete` raises an
explicit not-found exception; in both cases the state is unchanged.  The
state `st` — and with it the provider registry — is universally quantified
and unconstrained, so neither outcome depends on any backend: no backend
call is performed. -/
theorem missing_name_get_delete_notfound
    (st : DataState) (n : String) (d : Option String)
    (hdb : st.dbSet = true) (hmiss : dbGet st.store n = none) :
    (Data.get st n d).result = Except.error PyError.systemExit ∧
    (Data.get st n d).printed =
      ["Requested file not found. Use `ls` to see a list of file names."] ∧
    (Data.get st n d).state = st ∧
    (Data.delete st n).result =
      Except.error (PyError.exception (n ++ " not found in the database.")) ∧
    (Data.delete st n).state = st := by
  simp [Data.get, Data.delete, hdb, hmiss]

/-- Witness for C2 at a concrete state not tracking the requested name. -/
theorem missing_name_get_delete_notfound_witness :
    (Data.get failState "missing.txt" none).result =
      Except.error PyError.systemExit ∧
    (Data.get failState "missing.txt" none).printed =
      ["Requested file not found. Use `ls` to see a list of file names."] ∧
    (Data.get failState "missing.txt" none).state = failState ∧
    (Data.delete failState "missing.txt").result =
      Except.error (PyError.exception ("missing.txt" ++ " not found in the database.")) ∧
    (Data.delete failState "missing.txt").state = failState :=
  missing_name_get_delete_notfound failState "missing.txt" none rfl rfl

/-- C3: `add` performs the backend upload before touching the metadata
store; when the upload raises, the exception propagates and the state — in
particular the store — is unchanged.  The theorem holds for every state,
including states whose metadata store is unset, which shows the upload
happens strictly before any store access. -/
theorem add_upload_failure_writes_no_metadata
    (st : DataState) (p : Option String) (path : String)
    (prov : StorageProvider) (e : PyError)
    (hprov : dictGet st.providers (pythonOr p "default") = some prov)
    (hfail : prov.add path = Except.error e) :
    (Data.add st p path).result = Except.error e ∧
    (Data.add st p path).state = st := by
  simp [Data.add, hprov, hfail]

/-- Witness for C3 at a concrete state whose provider's upload fails. -/
theorem add_upload_failure_writes_no_metadata_witness :
    (Data.add failState none "draft.txt").result =
      Except.error (PyError.exception "upload failed") ∧
    (Data.add failState none "draft.txt").state = failState :=
  add_upload_failure_writes_no_metadata failState none "draft.txt"
    failProvider (PyError.exception "upload failed") rfl rfl

/-- C6: for every tracked record whose stored service identifier is not a
key of the provider registry, `get` and `delete` raise a `KeyError` on that
identifier; `delete` leaves the state unchanged, so the metadata entry is
not removed. -/
theorem unresolved_backend_get_delete_fail
    (st : DataState) (n : String) (d : Option String) (cf : TrackedFile)
    (hdb : st.dbSet = true) (hfind : dbGet st.store n = some cf)
    (hnoprov : dictGet st.providers cf.service = none) :
    (Data.get st n d).result = Except.error (PyError.keyError cf.service) ∧
    (Data.delete st n).result = Except.error (PyError.keyError cf.service) ∧
    (Data.delete st n).state = st ∧
    dbGet ((Data.delete st n).state).store n = some cf := by
  simp [Data.get, Data.delete, hdb, hfind, hnoprov]

/-- A record whose stored service does not resolve to any registered
provider, and a state tracking it. -/
def orphanFile : TrackedFile := ⟨"notes.txt", "aws", 42, "/store/notes.txt"⟩

/-- A sample object state tracking `orphanFile` while registering only the
`local` provider. -/
def orphanState : DataState := ⟨true, [orphanFile], [("local", okProvider)]⟩

/-- Witness for C6 at a concrete state whose record names service `aws`,
which is not registered. -/
theorem unresolved_backend_get_delete_fail_witness :
    (Data.get orphanState "notes.txt" none).result =
      Except.error (PyError.keyError "aws") ∧
    (Data.delete orphanState "notes.txt").result =
      Except.error (PyError.keyError "aws") ∧
    (Data.delete orphanState "notes.txt").state = orphanState ∧
    dbGet ((Data.delete orphanState "notes.txt").state).store "notes.txt" =
      some orphanFile :=
  unresolved_backend_get_delete_fail orphanState "notes.txt" none orphanFile
    rfl rfl rfl

/-- C8: `ls` returns exactly what the Metadata Store's list operation yields,
leaves the state unchanged, and a second call on the resulting state gives
the identical outcome. -/
theorem ls_idempotent_delegates
    (st : DataState) (hdb : st.dbSet = true) :
    (Data.ls st).result = Except.ok (dbListFiles st.store) ∧
    (Data.ls st).state = st ∧
    Data.ls ((Data.ls st).state) = Data.ls st := by
  simp [Data.ls, hdb]

/-- Witness for C8 at a concrete state. -/
theorem ls_idempotent_delegates_witness :
    (Data.ls okState).result = Except.ok (dbListFiles okState.store) ∧
    (Data.ls okState).state = okState ∧
    Data.ls ((Data.ls okState).state) = Data.ls okState :=
  ls_idempotent_delegates okState rfl

/-- C9: `ls` prints the fixed-width header row `FILE SERVICE SIZE URL`
first, followed by one row per tracked record in the order the Metadata
Store lists them, each formatted by the same fixed-width `printRow`. -/
theorem ls_prints_header_then_rows
    (st : DataState) (hdb : st.dbSet = true) :
    (Data.ls st).printed =
      Data.printRow "FILE" "SERVICE" "SIZE" "URL" ::
        (dbListFiles st.store).map
          (fun f => Data.printRow f.name f.service (toString f.size) f.url) := by
  simp [Data.ls, hdb]

/-- Witness for C9 at a concrete state. -/
theorem ls_prints_header_then_rows_witness :
    (Data.ls okState).printed =
      Data.printRow "FILE" "SERVICE" "SIZE" "URL" ::
        (dbListFiles okState.store).map
          (fun f => Data.printRow f.name f.service (toString f.size) f.url) :=
  ls_prints_header_then_rows okState rfl

/-- C5: requesting a provider name with no matching registry entry fails
with a `KeyError` on that name — on `add` (leaving the state, hence the
metadata store, unchanged) and equally when the name is the configured
`default.service` (the `config` call itself raises the `KeyError`). -/
theorem unconfigured_backend_fails
    (st : DataState) (p : Option String) (path : String)
    (mkL : String → StorageProvider)
    (mkA : String → String → Option String → StorageProvider)
    (conf : DataConf) (dbC : List TrackedFile) (s : String)
    (hmiss : dictGet st.providers (pythonOr p "default") = none)
    (hds : conf.defaultService = some s)
    (hdmiss : dictGet (Data.configProviders mkL mkA conf) s = none) :
    (Data.add st p path).result =
      Except.error (PyError.keyError (pythonOr p "default")) ∧
    (Data.add st p path).state = st ∧
    (Data.config mkL mkA conf dbC).1 = Except.error (PyError.keyError s) := by
  refine ⟨?_, ?_, ?_⟩
  · simp [Data.add, hmiss]
  · simp [Data.add, hmiss]
  · simp [Data.config, hds, hdmiss]

/-- A placeholder constructor for the external provider classes, used where
only registration (not behaviour) matters. -/
def mkLocalStub : String → StorageProvider := fun _ => failProvider

/-- A placeholder constructor for the external Azure provider class. -/
def mkAzureStub : String → String → Option String → StorageProvider :=
  fun _ _ _ => failProvider

/-- A state with a metadata store but an empty provider registry. -/
def emptyState : DataState := ⟨true, [], []⟩

/-- A configuration that names `azure` as default service while configuring
no backend at all. -/
def confAzureDefault : DataConf := ⟨some "local", none, none, none, some "azure"⟩

/-- Witness for C5: requesting the unregistered name `azure` explicitly on
`add` and as the configured default. -/
theorem unconfigured_backend_fails_witness :
    (Data.add emptyState (some "azure") "draft.txt").result =
      Except.error (PyError.keyError "azure") ∧
    (Data.add emptyState (some "azure") "draft.txt").state = emptyState ∧
    (Data.config mkLocalStub mkAzureStub confAzureDefault []).1 =
      Except.error (PyError.keyError "azure") :=
  unconfigured_backend_fails emptyState (some "azure") "draft.txt"
    mkLocalStub mkAzureStub confAzureDefault [] "azure" rfl rfl rfl

/-- A constructor for the local provider class whose uploads succeed and
follow the spec's upload contract (service set to `local`). -/
def mkLocalOk : String → StorageProvider :=
  fun sp =>
    ⟨fun p => Except.ok ⟨p, "local", 42, sp ++ "/" ++ p⟩,
     fun _ _ => Except.ok (),
     fun _ => Except.ok ()⟩

/-- C10: when `default.db` is anything other than `local` (or absent),
`config` leaves `self._db` unset, and every subsequent operation fails with
an `AttributeError` on the missing store — immediately for `ls`, `get` and
`delete`, and for `add` as soon as it reaches the store (that is, whenever
the named provider resolves and the upload succeeds) — instead of a
not-found or configuration error. -/
theorem nonlocal_default_db_leaves_store_unset
    (mkL : String → StorageProvider)
    (mkA : String → String → Option String → StorageProvider)
    (conf : DataConf) (dbC : List TrackedFile) (st : DataState)
    (n path : String) (d p : Option String)
    (prov : StorageProvider) (f : TrackedFile)
    (hdb : conf.defaultDb ≠ some "local")
    (hcfg : Data.config mkL mkA conf dbC = (Except.ok (), st))
    (hprov : dictGet st.providers (pythonOr p "default") = some prov)
    (hup : prov.add path = Except.ok f) :
    st.dbSet = false ∧
    (Data.ls st).result = Except.error PyError.attributeError ∧
    (Data.get st n d).result = Except.error PyError.attributeError ∧
    (Data.delete st n).result = Except.error PyError.attributeError ∧
    (Data.add st p path).result = Except.error PyError.attributeError := by
  have hset : st.dbSet = false := by
    cases hds : conf.defaultService with
    | none => simp [Data.config, hds] at hcfg
    | some s =>
      cases hdg : dictGet (Data.configProviders mkL mkA conf) s with
      | none => simp [Data.config, hds, hdg] at hcfg
      | some prov2 =>
        simp [Data.config, hds, hdg] at hcfg
        subst hcfg
        simp [hdb]
  exact ⟨hset, by simp [Data.ls, hset], by simp [Data.get, hset],
    by simp [Data.delete, hset], by simp [Data.add, hprov, hup, hset]⟩

/-- A configuration whose `default.db` is `mongo`, with a local backend
registered and set as default service. -/
def confMongoDb : DataConf :=
  ⟨some "mongo", none, some "/store", none, some "local"⟩

/-- The state `config` produces from `confMongoDb` with `mkLocalOk`. -/
def stMongoDb : DataState :=
  ⟨false, [], [("local", mkLocalOk "/store"), ("default", mkLocalOk "/store")]⟩

/-- Witness for C10 at `confMongoDb`: the store stays unset and every
operation hits the `AttributeError`. -/
theorem nonlocal_default_db_leaves_store_unset_witness :
    stMongoDb.dbSet = false ∧
    (Data.ls stMongoDb).result = Except.error PyError.attributeError ∧
    (Data.get stMongoDb "notes.txt" none).result =
      Except.error PyError.attributeError ∧
    (Data.delete stMongoDb "notes.txt").result =
      Except.error PyError.attributeError ∧
    (Data.add stMongoDb none "draft.txt").result =
      Except.error PyError.attributeError :=
  nonlocal_default_db_leaves_store_unset mkLocalOk mkAzureStub confMongoDb []
    stMongoDb "notes.txt" "draft.txt" none none (mkLocalOk "/store")
    ⟨"draft.txt", "local", 42, "/store/draft.txt"⟩
    (by simp [confMongoDb]) rfl rfl rfl

/-- C4: when `add` is called without naming a backend, the provider used is
the `default` alias that `config` bound to `self._providers[default.service]`,
so — under the spec's upload contract for the external provider classes
(an upload reports the provider's own identifier as `service`) — the
returned record's service field equals the configured `default.service`
value. -/
theorem add_default_uses_configured_service
    (mkL : String → StorageProvider)
    (mkA : String → String → Option String → StorageProvider)
    (conf : DataConf) (dbC : List TrackedFile) (st : DataState)
    (s path : String) (f : TrackedFile)
    (hLc : ∀ sp q g, (mkL sp).add q = Except.ok g → g.service = "local")
    (hAc : ∀ a k c q g, (mkA a k c).add q = Except.ok g → g.service = "azure")
    (hds : conf.defaultService = some s)
    (hcfg : Data.config mkL mkA conf dbC = (Except.ok (), st))
    (hadd : (Data.add st none path).result = Except.ok f) :
    f.service = s := by
  cases hdg : dictGet (Data.configProviders mkL mkA conf) s with
  | none => simp [Data.config, hds, hdg] at hcfg
  | some prov =>
    simp [Data.config, hds, hdg] at hcfg
    subst hcfg
    have hkey : dictGet (Data.configProviders mkL mkA conf ++ [("default", prov)])
        "default" = some prov := by
      rw [dictGet_append_of_left_none _ _ _ (configProviders_default_none mkL mkA conf)]
      simp [dictGet]
    cases hup : prov.add path with
    | error e => simp [Data.add, pythonOr, hkey, hup] at hadd
    | ok g =>
      cases hdbb : decide (conf.defaultDb = some "local") with
      | false => simp [Data.add, pythonOr, hkey, hup, hdbb] at hadd
      | true =>
        simp [Data.add, pythonOr, hkey, hup, hdbb] at hadd
        rcases configProviders_resolve mkL mkA conf s prov hdg with
          ⟨hs, sp, hprov⟩ | ⟨hs, a, k, c, hprov⟩
        · subst hprov
          rw [← hadd, hs]
          exact hLc sp path g hup
        · subst hprov
          rw [← hadd, hs]
          exact hAc a k c path g hup

/-- A configuration with only a local backend, default service `local` and a
local metadata store. -/
def confLocalDefault : DataConf :=
  ⟨some "local", some "/db", some "/store", none, some "local"⟩

/-- The state `config` produces from `confLocalDefault` with `mkLocalOk`. -/
def stLocalDefault : DataState :=
  ⟨true, [], [("local", mkLocalOk "/store"), ("default", mkLocalOk "/store")]⟩

/-- Witness for C4: an `add` without a named backend on `confLocalDefault`
returns a record whose service is the configured default `local`. -/
theorem add_default_uses_configured_service_witness :
    (Data.add stLocalDefault none "draft.txt").result =
      Except.ok ⟨"draft.txt", "local", 42, "/store/draft.txt"⟩ ∧
    TrackedFile.service ⟨"draft.txt", "local", 42, "/store/draft.txt"⟩ = "local" :=
  ⟨rfl,
   add_default_uses_configured_service mkLocalOk mkAzureStub confLocalDefault []
     stLocalDefault "local" "draft.txt"
     ⟨"draft.txt", "local", 42, "/store/draft.txt"⟩
     (by intro sp q g h; simp [mkLocalOk] at h; rw [← h]
        )
     (by intro a k c q g h; simp [mkAzureStub, failProvider] at h)
     rfl rfl rfl⟩

/-- C7 as stated is false: registration tests Python truthiness, not
presence.  A configuration whose `service.local.CMDATA_STORAGE_FOLDER` is
set to the empty string has the option set, yet `config` does not register
the local backend. -/
theorem registration_iff_option_set_counterexample :
    ¬ ((dictGet (Data.configProviders mkLocalStub mkAzureStub
          ⟨none, none, some "", none, none⟩) "local").isSome =
        (DataConf.localStorageFolder ⟨none, none, some "", none, none⟩).isSome) := by
  decide

/-- C7 (amended): a backend is registered exactly when its required options
are set to non-empty (truthy) values — the local backend exactly when the
storage-folder option is truthy, the azure backend exactly when both the
storage-account and storage-key options are truthy; the container option is
not required (the right-hand sides do not mention it). -/
theorem registration_iff_truthy_options
    (mkL : String → StorageProvider)
    (mkA : String → String → Option String → StorageProvider)
    (conf : DataConf) :
    ((dictGet (Data.configProviders mkL mkA conf) "local").isSome
       = truthy conf.localStorageFolder) ∧
    ((dictGet (Data.configProviders mkL mkA conf) "azure").isSome
       = (truthy (conf.azure.bind AzureConf.account) &&
          truthy (conf.azure.bind AzureConf.key))) := by
  unfold Data.configProviders
  rcases hAz : conf.azure with _ | az
  · cases hL : truthy conf.localStorageFolder <;> simp [hL, dictGet, truthy]
  · cases hcred : truthy az.account && truthy az.key <;>
      cases hL : truthy conf.localStorageFolder <;>
        simp [hL, hcred, dictGet]
